import Mathlib

/-!
Verification of the marteech-fapp delivery platform core: the driver
location tracker (`DriverTracker` Durable Object), the order lifecycle
(`OrderService.updateOrderStatus` / `isValidTransition`), and the dispatch
engine (`OrderService.dispatchOrder` / `triggerDispatch`) backed by the D1
repository (`OrderRepository`).

Coordinates and distances are modelled as rationals; timestamps as integers
(milliseconds since epoch, standing for the ISO strings the code stores,
which convert to epoch milliseconds via `Date.parse` / `getTime`).  The
`haversineDistance` import from `src/utils/index.ts` is treated as an
abstract pure function of the four coordinates (a `Dist` parameter): none
of the claims under study depends on the numeric values it produces, only
on how its results are used for filtering and ranking.
-/

deriving instance DecidableEq for Except

namespace Marteech

/-- Abstract stand-in for `haversineDistance(lat1, lng1, lat2, lng2)`. -/
abbrev Dist := ℚ → ℚ → ℚ → ℚ → ℚ

/-! ### A model of JavaScript `Array.prototype.sort` with a numeric-key
comparator.  ECMAScript requires sort to be stable and to produce a list
sorted by the comparator, here `(a, b) => key a - key b`.  We model it as a
stable insertion sort on the key: an element is inserted after every
element with a strictly smaller-or-equal position requirement, i.e. before
the first element whose key is not strictly below its own. -/

def insertKeyed (key : α → ℚ) (x : α) : List α → List α
  | [] => [x]
  | y :: ys => if key y < key x then y :: insertKeyed key x ys else x :: y :: ys

def jsSortByKey (key : α → ℚ) : List α → List α
  | [] => []
  | x :: xs => insertKeyed key x (jsSortByKey key xs)

theorem perm_insertKeyed (key : α → ℚ) (x : α) (l : List α) :
    List.Perm (insertKeyed key x l) (x :: l) := by
  induction l with
  | nil => exact List.Perm.refl _
  | cons y ys ih =>
    simp only [insertKeyed]
    split
    · exact (List.Perm.cons y ih).trans (List.Perm.swap x y ys)
    · exact List.Perm.refl _

theorem perm_jsSortByKey (key : α → ℚ) (l : List α) :
    List.Perm (jsSortByKey key l) l := by
  induction l with
  | nil => exact List.Perm.refl _
  | cons x xs ih =>
    exact (perm_insertKeyed key x (jsSortByKey key xs)).trans (List.Perm.cons x ih)

theorem mem_jsSortByKey {key : α → ℚ} {l : List α} {a : α} :
    a ∈ jsSortByKey key l ↔ a ∈ l :=
  (perm_jsSortByKey key l).mem_iff

theorem pairwise_insertKeyed {key : α → ℚ} {x : α} {l : List α}
    (h : l.Pairwise (fun a b => key a ≤ key b)) :
    (insertKeyed key x l).Pairwise (fun a b => key a ≤ key b) := by
  induction l with
  | nil => simp [insertKeyed]
  | cons y ys ih =>
    rw [List.pairwise_cons] at h
    simp only [insertKeyed]
    split
    · rename_i hlt
      refine List.pairwise_cons.mpr ⟨?_, ih h.2⟩
      intro z hz
      rcases List.mem_cons.mp ((perm_insertKeyed key x ys).mem_iff.mp hz) with hz | hz
      · exact hz ▸ le_of_lt hlt
      · exact h.1 z hz
    · rename_i hge
      refine List.pairwise_cons.mpr ⟨?_, List.pairwise_cons.mpr h⟩
      intro z hz
      rcases List.mem_cons.mp hz with hz | hz
      · exact hz ▸ le_of_not_lt hge
      · exact le_trans (le_of_not_lt hge) (h.1 z hz)

theorem sorted_jsSortByKey (key : α → ℚ) (l : List α) :
    (jsSortByKey key l).Pairwise (fun a b => key a ≤ key b) := by
  induction l with
  | nil => simp [jsSortByKey]
  | cons x xs ih => exact pairwise_insertKeyed ih

/-- Stability of the sort: among elements sharing one key value, the
original order is retained (`filter` by that key value is unchanged). -/
theorem filter_insertKeyed (key : α → ℚ) (q : ℚ) [DecidablePred fun a => key a = q]
    (x : α) (l : List α) (hl : l.Pairwise (fun a b => key a ≤ key b)) :
    (insertKeyed key x l).filter (fun a => decide (key a = q)) =
      if key x = q then x :: l.filter (fun a => decide (key a = q))
      else l.filter (fun a => decide (key a = q)) := by
  induction l with
  | nil => by_cases hx : key x = q <;> simp [insertKeyed, List.filter_cons, hx]
  | cons y ys ih =>
    rw [List.pairwise_cons] at hl
    simp only [insertKeyed]
    split
    · rename_i hlt
      by_cases hy : key y = q
      · have hx : ¬ key x = q := by
          intro hx
          rw [hx, hy] at hlt
          exact lt_irrefl q hlt
        simp [List.filter_cons, hy, hx, ih hl.2]
      · simp [List.filter_cons, hy, ih hl.2]
    · by_cases hx : key x = q
      · simp [List.filter_cons, hx]
      · simp [List.filter_cons, hx]

theorem filter_jsSortByKey (key : α → ℚ) (q : ℚ) [DecidablePred fun a => key a = q]
    (l : List α) :
    (jsSortByKey key l).filter (fun a => decide (key a = q)) =
      l.filter (fun a => decide (key a = q)) := by
  induction l with
  | nil => rfl
  | cons x xs ih =>
    rw [jsSortByKey, filter_insertKeyed key q x _ (sorted_jsSortByKey key xs), ih]
    by_cases hx : key x = q
    · simp [List.filter_cons, hx]
    · simp [List.filter_cons, hx]

/-! ### LocationStore: the `DriverTracker` Durable Object
(`src/src/services/DriverTracker.ts`).

`this.locations` is a plain JavaScript object keyed by driver id; for the
(non array-index) driver-id strings used here, JavaScript objects enumerate
string keys in insertion order, so it is modelled as an insertion-ordered
association list.  `this.state.storage` (key `'locations'`) is the
persisted mirror written by `persist()`. -/

structure DriverLocation where
  driver_id : String
  lat : ℚ
  lng : ℚ
  updated_at : ℤ
deriving DecidableEq

abbrev LocationsObj := List (String × DriverLocation)

/-- JavaScript object property read `obj[k]` (undefined ↦ `none`). -/
def objGet (m : LocationsObj) (k : String) : Option DriverLocation :=
  (m.find? (fun p => p.1 == k)).map Prod.snd

/-- JavaScript object property write `obj[k] = v`: an existing key keeps
its position in enumeration order, a new key is appended. -/
def objSet (m : LocationsObj) (k : String) (v : DriverLocation) : LocationsObj :=
  if m.any (fun p => p.1 == k) then
    m.map (fun p => if p.1 == k then (k, v) else p)
  else
    m ++ [(k, v)]

/-- JavaScript `delete obj[k]`. -/
def objDelete (m : LocationsObj) (k : String) : LocationsObj :=
  m.filter (fun p => p.1 != k)

structure TrackerState where
  locations : LocationsObj
  storage : Option LocationsObj
deriving DecidableEq

/-- `persist()`: `this.state.storage.put('locations', this.locations)`. -/
def persist (st : TrackerState) : TrackerState :=
  { st with storage := some st.locations }

inductive TrackerError where
  | missingFields
  | driverNotFound
deriving DecidableEq

/-- `handleUpdateLocation` (PUT /location), with `now` the current
wall-clock time `new Date()` in epoch milliseconds.  The guard
`!body.driver_id || body.lat == null || body.lng == null` reduces, for a
request that does supply numeric lat/lng, to the driver id being falsy
(the empty string). -/
def handleUpdateLocation (st : TrackerState) (driver_id : String) (lat lng : ℚ)
    (now : ℤ) : Except TrackerError (TrackerState × DriverLocation) :=
  if driver_id = "" then .error .missingFields
  else
    let entry : DriverLocation :=
      { driver_id := driver_id, lat := lat, lng := lng, updated_at := now }
    let st' := persist { st with locations := objSet st.locations driver_id entry }
    .ok (st', entry)

/-- `handleGetLocation` (GET /location/:driver_id); `none` is the
404 Driver-not-found response. -/
def handleGetLocation (st : TrackerState) (driverId : String) : Option DriverLocation :=
  objGet st.locations driverId

/-- `handleRemoveLocation` (DELETE /location/:driver_id). -/
def handleRemoveLocation (st : TrackerState) (driverId : String) :
    Except TrackerError TrackerState :=
  if objGet st.locations driverId = none then .error .driverNotFound
  else .ok (persist { st with locations := objDelete st.locations driverId })

/-- The staleness window: `5 * 60 * 1000` milliseconds. -/
def staleWindowMs : ℤ := 5 * 60 * 1000

/-- A `Nearby` result entry `{...loc, distance_km}`. -/
structure NearbyEntry where
  driver_id : String
  lat : ℚ
  lng : ℚ
  updated_at : ℤ
  distance_km : ℚ
deriving DecidableEq

/-- The pruning phase of `handleNearby`: delete every entry whose
`updated_at` is strictly below `now - 5*60*1000`, and `persist()` only
when at least one entry was deleted (the `pruned` flag). -/
def pruneStale (st : TrackerState) (now : ℤ) : TrackerState :=
  let staleThreshold := now - staleWindowMs
  let kept := st.locations.filter (fun p => !(p.2.updated_at < staleThreshold))
  if kept.length ≠ st.locations.length then persist { st with locations := kept }
  else { st with locations := kept }

/-- The ranking phase of `handleNearby` before sorting:
`Object.values(this.locations)` mapped to `{...loc, distance_km:
haversineDistance(lat, lng, loc.lat, loc.lng)}` and filtered to
`distance_km <= radius_km`. -/
def nearbyCandidates (dist : Dist) (st : TrackerState) (lat lng radius_km : ℚ) :
    List NearbyEntry :=
  ((st.locations.map Prod.snd).map (fun loc =>
    ({ driver_id := loc.driver_id, lat := loc.lat, lng := loc.lng,
       updated_at := loc.updated_at,
       distance_km := dist lat lng loc.lat loc.lng } : NearbyEntry))).filter
    (fun e => e.distance_km ≤ radius_km)

/-- `handleNearby` (POST /nearby): prune stale entries, then rank the
survivors and sort ascending by `distance_km` (JavaScript's stable
`Array.prototype.sort` with comparator `a.distance_km - b.distance_km`). -/
def handleNearby (dist : Dist) (st : TrackerState) (lat lng radius_km : ℚ)
    (now : ℤ) : TrackerState × List NearbyEntry :=
  let st' := pruneStale st now
  (st', jsSortByKey (fun e => e.distance_km)
    (nearbyCandidates dist st' lat lng radius_km))

/-! ### Order data model (`src/src/types` via `src/unnamed/part_000`) and
the D1 repository (`OrderRepository`, `src/unnamed/part_001`). -/

inductive OrderStatus where
  | created
  | accepted
  | preparing
  | picked_up
  | delivered
  | cancelled
deriving DecidableEq

inductive Role where
  | customer
  | driver
  | merchant
  | admin
deriving DecidableEq

structure OrderRow where
  id : String
  customer_id : String
  merchant_id : String
  driver_id : Option String
  status : OrderStatus
  total_price : ℚ
  pickup_lat : ℚ
  pickup_lng : ℚ
  dropoff_lat : ℚ
  dropoff_lng : ℚ
  notes : Option String
  created_at : ℤ
  updated_at : ℤ
deriving DecidableEq

structure DriverStatusRow where
  driver_id : String
  is_available : Bool
  current_lat : Option ℚ
  current_lng : Option ℚ
  updated_at : ℤ
deriving DecidableEq

/-- The D1 database state: the `orders` and `driver_status` tables
(`order_items` plays no role in the claims under study beyond the
total-price computation, which happens before insertion). -/
structure Db where
  orders : List OrderRow
  driver_status : List DriverStatusRow
deriving DecidableEq

namespace OrderRepository

/-- `SELECT * FROM orders WHERE id = ?` (first row or null). -/
def findById (db : Db) (id : String) : Option OrderRow :=
  db.orders.find? (fun r => r.id == id)

/-- `updateStatus`: an **unconditional** `UPDATE orders SET status = ?[,
driver_id = ?], updated_at = ? WHERE id = ?` followed by `findById`.
There is no `AND status = 'created'` clause. -/
def updateStatus (db : Db) (id : String) (status : OrderStatus)
    (driverId : Option String) (now : ℤ) : Db × Option OrderRow :=
  let orders' := db.orders.map (fun r =>
    if r.id == id then
      match driverId with
      | some d => { r with status := status, driver_id := some d, updated_at := now }
      | none => { r with status := status, updated_at := now }
    else r)
  let db' : Db := { db with orders := orders' }
  (db', findById db' id)

/-- The subquery `SELECT DISTINCT driver_id FROM orders WHERE status IN
('accepted', 'preparing', 'picked_up') AND driver_id IS NOT NULL`. -/
def activeDriverIds (db : Db) : List String :=
  (db.orders.filter (fun r =>
    (r.status == .accepted || r.status == .preparing || r.status == .picked_up)
      && r.driver_id.isSome)).filterMap (fun r => r.driver_id)

/-- A row of the `findAvailableDrivers` result set. -/
structure Candidate where
  driver_id : String
  current_lat : ℚ
  current_lng : ℚ
deriving DecidableEq

/-- `findAvailableDrivers`: `driver_status` rows with `is_available = 1`,
non-NULL coordinates, and a driver id not among the active-order driver
ids. -/
def findAvailableDrivers (db : Db) : List Candidate :=
  (db.driver_status.filter (fun d =>
    d.is_available && d.current_lat.isSome && d.current_lng.isSome
      && !((activeDriverIds db).contains d.driver_id))).map (fun d =>
    { driver_id := d.driver_id,
      current_lat := d.current_lat.getD 0,
      current_lng := d.current_lng.getD 0 })

/-- `upsertDriverStatus`: `INSERT ... ON CONFLICT(driver_id) DO UPDATE SET
is_available, current_lat, current_lng, updated_at` — the conflicting
row's availability and coordinates are overwritten (`lat ?? null`). -/
def upsertDriverStatus (db : Db) (driverId : String) (isAvailable : Bool)
    (lat lng : Option ℚ) (now : ℤ) : Db :=
  if db.driver_status.any (fun d => d.driver_id == driverId) then
    { db with driver_status := db.driver_status.map (fun d =>
        if d.driver_id == driverId then
          { d with is_available := isAvailable, current_lat := lat,
                   current_lng := lng, updated_at := now }
        else d) }
  else
    { db with driver_status := db.driver_status ++
        [{ driver_id := driverId, is_available := isAvailable,
           current_lat := lat, current_lng := lng, updated_at := now }] }

end OrderRepository

/-! ### OrderService (`src/unnamed/part_002`). -/

/-- `ALLOWED_TRANSITIONS`: valid target statuses per actor role. -/
def ALLOWED_TRANSITIONS : Role → List OrderStatus
  | .merchant => [.accepted, .preparing, .cancelled]
  | .driver => [.picked_up, .delivered]
  | .customer => [.cancelled]
  | .admin => [.accepted, .preparing, .picked_up, .delivered, .cancelled]

/-- The numeric ranks assigned inside `isValidTransition`:
created=0, accepted=1, preparing=2, picked_up=3, delivered=4,
cancelled=-1. -/
def statusRank : OrderStatus → ℤ
  | .created => 0
  | .accepted => 1
  | .preparing => 2
  | .picked_up => 3
  | .delivered => 4
  | .cancelled => -1

/-- `isValidTransition(current, next)`: cancelling is allowed from any
state other than `delivered`/`cancelled`; otherwise the target's rank must
strictly exceed the current rank. -/
def isValidTransition (current next : OrderStatus) : Bool :=
  if next = .cancelled then
    current != .delivered && current != .cancelled
  else
    statusRank next > statusRank current

inductive ServiceError where
  | notFound
  | accessDenied
  | roleForbidden
  | invalidTransition
  | alreadyDispatched
deriving DecidableEq

namespace OrderService

/-- `updateOrderStatus(orderId, input, requestingUserId, role)`.  The
returned `Db` is the database after the call (unchanged when an
`HTTPException` is thrown, since the throw happens before any write):
404 Order-not-found, then the party-access check (403 Access denied), then
the role-permission guard (400 Role cannot set status), then the logical
ordering guard (400 Cannot transition), then the unconditional
`updateStatus` write. -/
def updateOrderStatus (db : Db) (orderId : String) (target : OrderStatus)
    (requestingUserId : String) (role : Role) (now : ℤ) :
    Db × Except ServiceError (Option OrderRow) :=
  match OrderRepository.findById db orderId with
  | none => (db, .error .notFound)
  | some order =>
    if ¬ (role = .admin ∨ order.customer_id = requestingUserId ∨
          order.merchant_id = requestingUserId ∨
          order.driver_id = some requestingUserId) then
      (db, .error .accessDenied)
    else if target ∉ ALLOWED_TRANSITIONS role then
      (db, .error .roleForbidden)
    else if ¬ isValidTransition order.status target then
      (db, .error .invalidTransition)
    else
      let res := OrderRepository.updateStatus db orderId target none now
      (res.1, .ok res.2)

/-- A candidate augmented with its distance from the pickup point. -/
structure RankedCandidate where
  driver_id : String
  current_lat : ℚ
  current_lng : ℚ
  distance : ℚ
deriving DecidableEq

/-- `dispatchOrder(order)`: fetch available drivers; if none, return with
no write; otherwise rank by `haversineDistance(order.pickup_lat,
order.pickup_lng, d.current_lat, d.current_lng)` ascending (stable sort)
and write `updateStatus(order.id, 'accepted', nearest.driver_id)` —
unconditionally, with no re-check of the order's current status. -/
def dispatchOrder (dist : Dist) (db : Db) (order : OrderRow) (now : ℤ) : Db :=
  let availableDrivers := OrderRepository.findAvailableDrivers db
  if availableDrivers.isEmpty then db
  else
    let sorted := jsSortByKey (fun c => c.distance)
      (availableDrivers.map (fun d =>
        ({ driver_id := d.driver_id, current_lat := d.current_lat,
           current_lng := d.current_lng,
           distance := dist order.pickup_lat order.pickup_lng
             d.current_lat d.current_lng } : RankedCandidate)))
    match sorted with
    | [] => db
    | nearest :: _ =>
      (OrderRepository.updateStatus db order.id .accepted (some nearest.driver_id) now).1

/-- The `{assigned, driver_id?}` result of `triggerDispatch`. -/
structure DispatchResult where
  assigned : Bool
  driver_id : Option String
deriving DecidableEq

/-- `triggerDispatch(orderId)`: 404 if the order is missing, 400
"Order already dispatched or completed" if its status is not `created`;
otherwise run `dispatchOrder` on the row just read and answer with the
re-read row's `driver_id`. -/
def triggerDispatch (dist : Dist) (db : Db) (orderId : String) (now : ℤ) :
    Db × Except ServiceError DispatchResult :=
  match OrderRepository.findById db orderId with
  | none => (db, .error .notFound)
  | some order =>
    if order.status ≠ .created then (db, .error .alreadyDispatched)
    else
      let db' := dispatchOrder dist db order now
      let updated := OrderRepository.findById db' orderId
      (db', .ok { assigned := (updated.bind (fun r => r.driver_id)).isSome,
                  driver_id := updated.bind (fun r => r.driver_id) })

end OrderService

/-! ### Order creation and the driver-side service
(`OrderService.createOrder` in `src/unnamed/part_002`,
`DriverService` in `src/unnamed/part_003`). -/

structure OrderItem where
  name : String
  quantity : ℕ
  unit_price : ℚ
deriving DecidableEq

structure CreateOrderInput where
  merchant_id : String
  pickup_lat : ℚ
  pickup_lng : ℚ
  dropoff_lat : ℚ
  dropoff_lng : ℚ
  items : List OrderItem
  notes : Option String
deriving DecidableEq

/-- `input.items.reduce((sum, item) => sum + item.quantity * item.unit_price, 0)`. -/
def totalPrice (items : List OrderItem) : ℚ :=
  items.foldl (fun sum item => sum + item.quantity * item.unit_price) 0

/-- `OrderRepository.create`: inserts the order row with `driver_id =
NULL` and `status = 'created'` (the generated id and wall-clock time are
passed in). -/
def OrderRepository.create (db : Db) (orderId customerId : String)
    (input : CreateOrderInput) (total : ℚ) (now : ℤ) : Db × OrderRow :=
  let row : OrderRow :=
    { id := orderId, customer_id := customerId, merchant_id := input.merchant_id,
      driver_id := none, status := .created, total_price := total,
      pickup_lat := input.pickup_lat, pickup_lng := input.pickup_lng,
      dropoff_lat := input.dropoff_lat, dropoff_lng := input.dropoff_lng,
      notes := input.notes, created_at := now, updated_at := now }
  ({ db with orders := db.orders ++ [row] }, row)

/-- `DriverService.setAvailability(driverId, available)` forwards to
`upsertDriverStatus(driverId, available)` with **no** lat/lng, so the
upsert binds `NULL` for both coordinates. -/
def DriverService.setAvailability (db : Db) (driverId : String)
    (available : Bool) (now : ℤ) : Db :=
  OrderRepository.upsertDriverStatus db driverId available none none now

/-! ### The system as a transition system.

`OrderService.createOrder` launches `dispatchOrder(order)` fire-and-forget
(`this.dispatchOrder(order).catch(...)`), passing the order row captured
at creation time; the task runs at some later point of the event loop,
possibly after other requests have completed.  `Sys` therefore pairs the
database with the queue of pending automatic-dispatch tasks, and `step`
executes one service call (or one pending task) atomically. -/

structure Sys where
  db : Db
  pending : List OrderRow
deriving DecidableEq

inductive Op where
  | createOrder (orderId customerId : String) (input : CreateOrderInput) (now : ℤ)
  | runAutoDispatch (now : ℤ)
  | triggerDispatch (orderId : String) (now : ℤ)
  | updateOrderStatus (orderId : String) (target : OrderStatus)
      (userId : String) (role : Role) (now : ℤ)
  | updateLocation (driverId : String) (lat lng : ℚ) (now : ℤ)
  | goOffline (driverId : String) (now : ℤ)
  | setAvailability (driverId : String) (available : Bool) (now : ℤ)
deriving DecidableEq

def step (dist : Dist) (s : Sys) : Op → Sys
  | .createOrder orderId customerId input now =>
    let total := totalPrice input.items
    let (db', row) := OrderRepository.create s.db orderId customerId input total now
    { db := db', pending := s.pending ++ [row] }
  | .runAutoDispatch now =>
    match s.pending with
    | [] => s
    | row :: rest =>
      { db := OrderService.dispatchOrder dist s.db row now, pending := rest }
  | .triggerDispatch orderId now =>
    { s with db := (OrderService.triggerDispatch dist s.db orderId now).1 }
  | .updateOrderStatus orderId target userId role now =>
    { s with db := (OrderService.updateOrderStatus s.db orderId target userId role now).1 }
  | .updateLocation driverId lat lng now =>
    { s with db :=
        OrderRepository.upsertDriverStatus s.db driverId true (some lat) (some lng) now }
  | .goOffline driverId now =>
    { s with db := OrderRepository.upsertDriverStatus s.db driverId false none none now }
  | .setAvailability driverId available now =>
    { s with db := DriverService.setAvailability s.db driverId available now }

def run (dist : Dist) (s : Sys) (ops : List Op) : Sys :=
  ops.foldl (step dist) s

/-! ### Generic helper lemmas. -/

theorem eq_of_mem_of_nodup_keys {l : List (String × DriverLocation)}
    (hnd : (l.map Prod.fst).Nodup) {p q : String × DriverLocation}
    (hp : p ∈ l) (hq : q ∈ l) (h : p.1 = q.1) : p = q :=
  List.inj_on_of_nodup_map hnd hp hq h

theorem find?_map_replace (ps : LocationsObj) (k : String) (v : DriverLocation)
    (h : ps.any (fun q => q.1 == k) = true) :
    (ps.map (fun q => if q.1 == k then (k, v) else q)).find? (fun q => q.1 == k) =
      some (k, v) := by
  induction ps with
  | nil => simp at h
  | cons p ps ih =>
    rw [List.map_cons]
    by_cases hp : p.1 = k
    · rw [if_pos (beq_iff_eq.mpr hp)]
      exact List.find?_cons_of_pos _ (beq_self_eq_true k)
    · have hp' : (p.1 == k) = false := beq_eq_false_iff_ne.mpr hp
      have h' : ps.any (fun q => q.1 == k) = true := by
        simpa [List.any_cons, hp'] using h
      rw [if_neg (by simp [hp'])]
      rw [List.find?_cons_of_neg _ (by simp [hp'])]
      exact ih h'

theorem find?_append_new (ps : LocationsObj) (k : String) (v : DriverLocation)
    (h : ps.any (fun q => q.1 == k) = false) :
    (ps ++ [(k, v)]).find? (fun q => q.1 == k) = some (k, v) := by
  have hnone : ps.find? (fun q => q.1 == k) = none := by
    rw [List.find?_eq_none]
    intro x hx hxk
    rw [List.any_eq_false] at h
    exact absurd hxk (h x hx)
  simp [List.find?_append, hnone, List.find?_cons]

theorem objGet_objSet_self (m : LocationsObj) (k : String) (v : DriverLocation) :
    objGet (objSet m k v) k = some v := by
  rw [objSet, objGet]
  by_cases h : m.any (fun q => q.1 == k) = true
  · rw [if_pos h, find?_map_replace m k v h]
    rfl
  · rw [if_neg h, find?_append_new m k v (Bool.eq_false_iff.mpr h)]
    rfl

/-! ### Shared concrete fixtures for counterexamples and witnesses.
`distByLat` is a representative concrete instance of the abstract distance
function: on every concrete configuration below it orders the drivers
exactly as the haversine distance from the pickup point does (and the
claims under test do not depend on the distance values themselves, only on
how the code filters and ranks with them). -/

def distByLat : Dist := fun _ _ la2 _ => la2

def dbEmpty : Db := { orders := [], driver_status := [] }

def sysEmpty : Sys := { db := dbEmpty, pending := [] }

def trEmpty : TrackerState := { locations := [], storage := none }

def sampleInput : CreateOrderInput :=
  { merchant_id := "m1", pickup_lat := 1, pickup_lng := 1,
    dropoff_lat := 3, dropoff_lng := 3,
    items := [{ name := "noodles", quantity := 2, unit_price := 5 }],
    notes := none }

/-- The interleaving behind C1/C2: drivers dA (at the pickup point) and dB
report locations; a customer creates order o1 (which parks an automatic
dispatch task carrying the just-created row); an admin manually dispatches
o1, which assigns the nearest driver dA. -/
def raceOps : List Op :=
  [ .updateLocation "dA" 1 1 1,
    .updateLocation "dB" 2 2 1,
    .createOrder "o1" "c1" sampleInput 2,
    .triggerDispatch "o1" 3 ]

/-- The state after the manual dispatch: o1 is `accepted` with driver dA,
and the automatic dispatch task from creation is still pending. -/
def sysAfterManual : Sys := run distByLat sysEmpty raceOps

/-- The state after the pending automatic dispatch task then runs. -/
def sysAfterAuto : Sys := step distByLat sysAfterManual (.runAutoDispatch 4)

/-- Claim C1: the dispatch assignment write is guarded by a compare-and-set
on status = 'created'; a dispatch attempt on a non-created order must fail
with AlreadyDispatched and leave status and driver_id unchanged, and at
most one of several dispatch attempts on the same order can assign a
driver.  The code violates this: `OrderRepository.updateStatus` runs an
unconditional UPDATE with no status condition, and `dispatchOrder` never
re-checks the order's current status, so the automatic dispatch task left
over from creation runs against order o1 — whose status is already
`accepted` with driver dA — completes without any error, and overwrites
driver_id with dB: both dispatch attempts assigned a driver. -/
theorem c1_dispatch_write_unguarded :
    (OrderRepository.findById sysAfterManual.db "o1").map
        (fun r => (r.status, r.driver_id)) =
      some (OrderStatus.accepted, some "dA") ∧
    sysAfterManual.pending ≠ [] ∧
    (OrderRepository.findById sysAfterAuto.db "o1").map
        (fun r => (r.status, r.driver_id)) =
      some (OrderStatus.accepted, some "dB") := by
  exact ⟨by decide, by decide, by decide⟩

/-- Claim C2: over any sequence of operations an order's driver_id goes
from null to a set value at most once and never changes to a different
driver.  The code violates this: along the `raceOps` trace followed by the
pending automatic dispatch task, o1's driver_id evolves
null → dA (manual dispatch) → dB (stale automatic dispatch task), i.e. it
is assigned twice with two different drivers. -/
theorem c2_driver_id_reassigned :
    (OrderRepository.findById (run distByLat sysEmpty (raceOps.take 3)).db "o1").map
        (fun r => r.driver_id) = some none ∧
    (OrderRepository.findById sysAfterManual.db "o1").map
        (fun r => r.driver_id) = some (some "dA") ∧
    (OrderRepository.findById sysAfterAuto.db "o1").map
        (fun r => r.driver_id) = some (some "dB") := by
  exact ⟨by decide, by decide, by decide⟩

/-- The fixture for C5: an order that was cancelled, whose merchant then
asks to set it to `accepted`. -/
def cancelledRow : OrderRow :=
  { id := "o1", customer_id := "c1", merchant_id := "m1",
    driver_id := some "dA", status := .cancelled, total_price := 10,
    pickup_lat := 1, pickup_lng := 1, dropoff_lat := 2, dropoff_lng := 2,
    notes := none, created_at := 0, updated_at := 0 }

def dbCancelled : Db := { orders := [cancelledRow], driver_status := [] }

/-- The row the service hands back after resurrecting the cancelled order. -/
def resurrectedRow : OrderRow :=
  { cancelledRow with status := .accepted, updated_at := 10 }

/-- Claim C5: the rank ordering makes any reachable status sequence
strictly increasing apart from one jump to cancelled, and no status ever
follows `delivered` or `cancelled`.  The code violates the cancelled half:
`isValidTransition` gives `cancelled` the sentinel rank -1, so every
non-cancel target outranks it and the guard accepts `cancelled → accepted`;
at the service level a merchant party can resurrect a cancelled order to
`accepted`. -/
theorem c5_cancelled_not_terminal :
    isValidTransition .cancelled .accepted = true ∧
    (OrderService.updateOrderStatus dbCancelled "o1" .accepted "m1" .merchant 10).2 =
      .ok (some resurrectedRow) ∧
    (OrderRepository.findById
        (OrderService.updateOrderStatus dbCancelled "o1" .accepted "m1" .merchant 10).1
        "o1").map (fun r => r.status) = some OrderStatus.accepted := by
  exact ⟨by decide, by decide, by decide⟩

/-! ### C3: ordering of `Nearby` results. -/

def locFixB : DriverLocation := { driver_id := "b", lat := 1, lng := 1, updated_at := 0 }

def locFixA : DriverLocation := { driver_id := "a", lat := 1, lng := 1, updated_at := 0 }

/-- Driver "b" reported before driver "a"; both stand exactly at the query
point (1,1), hence at the same distance from it — 0 km under the real
haversine formula, so both pass the 10 km radius filter (any distance
function of the coordinates gives the two identical entries identical
distances; `distByLat` gives 1, also within radius). -/
def trTied : TrackerState := { locations := [("b", locFixB), ("a", locFixA)], storage := none }

/-- Claim C3 as stated is false: with two drivers at the same coordinates
as the query point (equal distance, in radius), `Nearby` returns them in
store insertion order "b", "a" — JavaScript's sort is stable and the
comparator `a.distance_km - b.distance_km` never consults `driver_id` —
even though ascending driver_id order would put "a" first. -/
theorem c3_counterexample :
    ((handleNearby distByLat trTied 1 1 10 0).2).map (fun e => e.driver_id) =
      ["b", "a"] ∧
    ((handleNearby distByLat trTied 1 1 10 0).2).map (fun e => e.distance_km) =
      [1, 1] ∧
    ("a".data < "b".data) := by
  exact ⟨by decide, by decide, by decide⟩

/-- Claim C3 amended: for every stored set of driver locations and every
query point, the sequence returned by `Nearby` is sorted ascending
(non-decreasing) by distance, and is a stable rearrangement of the
in-radius fresh entries: entries at equal distance keep the store's
insertion order; they are not reordered by driver_id. -/
theorem c3_nearby_sorted_stable (dist : Dist) (st : TrackerState)
    (lat lng radius : ℚ) (now : ℤ) :
    ((handleNearby dist st lat lng radius now).2).Pairwise
      (fun a b => a.distance_km ≤ b.distance_km) ∧
    List.Perm ((handleNearby dist st lat lng radius now).2)
      (nearbyCandidates dist (pruneStale st now) lat lng radius) ∧
    (∀ q : ℚ, ((handleNearby dist st lat lng radius now).2).filter
        (fun e => decide (e.distance_km = q)) =
      (nearbyCandidates dist (pruneStale st now) lat lng radius).filter
        (fun e => decide (e.distance_km = q))) := by
  refine ⟨?_, ?_, ?_⟩
  · exact sorted_jsSortByKey (fun e : NearbyEntry => e.distance_km) _
  · exact perm_jsSortByKey (fun e : NearbyEntry => e.distance_km) _
  · intro q
    exact filter_jsSortByKey (fun e : NearbyEntry => e.distance_km) q _

/-! ### C4: where dispatch resolves candidate positions from. -/

/-- The tracker state after driver dX reports (1,1) at time 0
(`DriverService.updateLocation` writes the Durable Object and mirrors the
position into `driver_status`). -/
def trC4 : TrackerState :=
  match handleUpdateLocation trEmpty "dX" 1 1 0 with
  | .ok (st, _) => st
  | .error _ => trEmpty

/-- The tracker state after a `Nearby` query at time 400000 ms (> 5
minutes later) has evicted dX's entry as stale. -/
def trC4Evicted : TrackerState := (handleNearby distByLat trC4 9 9 10 400000).1

/-- The D1 mirror of the same history: `upsertDriverStatus("dX", true, 1,
1)` from the location update, then order oX created. -/
def dbC4base : Db := OrderRepository.upsertDriverStatus dbEmpty "dX" true (some 1) (some 1) 0

def dbC4 : Db :=
  (OrderRepository.create dbC4base "oX" "c1" sampleInput (totalPrice sampleInput.items) 1).1

def orderC4 : OrderRow :=
  (OrderRepository.create dbC4base "oX" "c1" sampleInput (totalPrice sampleInput.items) 1).2

/-- Claim C4 as stated is false: dispatch does not resolve positions from
the LocationStore, and a driver whose LocationStore entry was evicted as
stale is not excluded.  Driver dX reported once at t = 0; a Nearby query
at t = 400000 evicts the entry (a LocationStore `Get` now answers
not-found, i.e. dX has no resolvable position there); yet
`findAvailableDrivers` still lists dX — its positions come from the D1
`driver_status` table, which has no staleness filter — and dispatch
assigns dX to the order. -/
theorem c4_counterexample :
    handleGetLocation trC4 "dX" ≠ none ∧
    handleGetLocation trC4Evicted "dX" = none ∧
    (OrderRepository.findAvailableDrivers dbC4).map (fun c => c.driver_id) = ["dX"] ∧
    (OrderRepository.findById
        (OrderService.dispatchOrder distByLat dbC4 orderC4 400001) "oX").map
      (fun r => (r.status, r.driver_id)) = some (OrderStatus.accepted, some "dX") := by
  exact ⟨by decide, by decide, by decide, by decide⟩

/-- Claim C4 amended: during dispatch, candidate positions are resolved
from the D1 `driver_status` table (not the LocationStore): every
driver_status row with a NULL coordinate — a driver who never reported a
position, or whose coordinates were cleared by going offline or toggling
availability — is excluded from the distance ranking; when candidates
exist the assignment write targets one of them (LocationStore staleness or
eviction does not exclude a driver). -/
theorem c4_candidates_from_driver_status (dist : Dist) (db : Db)
    (order : OrderRow) (now : ℤ)
    (hnd : (db.driver_status.map (fun r => r.driver_id)).Nodup) :
    (∀ row ∈ db.driver_status, (row.current_lat = none ∨ row.current_lng = none) →
       ∀ c ∈ OrderRepository.findAvailableDrivers db, c.driver_id ≠ row.driver_id) ∧
    (OrderRepository.findAvailableDrivers db = [] →
       OrderService.dispatchOrder dist db order now = db) ∧
    (OrderRepository.findAvailableDrivers db ≠ [] →
       ∃ c ∈ OrderRepository.findAvailableDrivers db,
         OrderService.dispatchOrder dist db order now =
           (OrderRepository.updateStatus db order.id .accepted (some c.driver_id) now).1) := by
  refine ⟨?_, ?_, ?_⟩
  · intro row hrow hnull c hc hcid
    obtain ⟨row', hrow', rfl⟩ := List.mem_map.mp hc
    have hmem' := (List.mem_filter.mp hrow').1
    have hpred := (List.mem_filter.mp hrow').2
    have heq : row' = row :=
      List.inj_on_of_nodup_map hnd hmem' hrow hcid
    subst heq
    simp only [Bool.and_eq_true] at hpred
    rcases hnull with hnull | hnull
    · rw [hnull] at hpred
      simp at hpred
    · rw [hnull] at hpred
      simp at hpred
  · intro hempty
    simp only [OrderService.dispatchOrder, hempty]
    rfl
  · intro hne
    simp only [OrderService.dispatchOrder]
    rw [if_neg (by simp only [List.isEmpty_iff]; exact hne)]
    have hperm := perm_jsSortByKey (fun c : OrderService.RankedCandidate => c.distance)
      ((OrderRepository.findAvailableDrivers db).map (fun d =>
        ({ driver_id := d.driver_id, current_lat := d.current_lat,
           current_lng := d.current_lng,
           distance := dist order.pickup_lat order.pickup_lng
             d.current_lat d.current_lng } : OrderService.RankedCandidate)))
    cases hsorted : jsSortByKey (fun c : OrderService.RankedCandidate => c.distance)
      ((OrderRepository.findAvailableDrivers db).map (fun d =>
        ({ driver_id := d.driver_id, current_lat := d.current_lat,
           current_lng := d.current_lng,
           distance := dist order.pickup_lat order.pickup_lng
             d.current_lat d.current_lng } : OrderService.RankedCandidate))) with
    | nil =>
      rw [hsorted] at hperm
      have := hperm.symm.eq_nil
      have hmapne : (OrderRepository.findAvailableDrivers db).map (fun d =>
        ({ driver_id := d.driver_id, current_lat := d.current_lat,
           current_lng := d.current_lng,
           distance := dist order.pickup_lat order.pickup_lng
             d.current_lat d.current_lng } : OrderService.RankedCandidate)) ≠ [] := by
        simpa using hne
      exact absurd this hmapne
    | cons nearest rest =>
      have hmem : nearest ∈ jsSortByKey (fun c : OrderService.RankedCandidate => c.distance)
        ((OrderRepository.findAvailableDrivers db).map (fun d =>
          ({ driver_id := d.driver_id, current_lat := d.current_lat,
             current_lng := d.current_lng,
             distance := dist order.pickup_lat order.pickup_lng
               d.current_lat d.current_lng } : OrderService.RankedCandidate))) := by
        rw [hsorted]
        exact List.mem_cons_self _ _
      have hmem' := mem_jsSortByKey.mp hmem
      obtain ⟨cand, hcand, hcf⟩ := List.mem_map.mp hmem'
      refine ⟨cand, hcand, ?_⟩
      rw [← hcf]

theorem c4_candidates_from_driver_status_witness :
    (∀ row ∈ dbC4.driver_status, (row.current_lat = none ∨ row.current_lng = none) →
       ∀ c ∈ OrderRepository.findAvailableDrivers dbC4, c.driver_id ≠ row.driver_id) ∧
    (OrderRepository.findAvailableDrivers dbC4 = [] →
       OrderService.dispatchOrder distByLat dbC4 orderC4 7 = dbC4) ∧
    (OrderRepository.findAvailableDrivers dbC4 ≠ [] →
       ∃ c ∈ OrderRepository.findAvailableDrivers dbC4,
         OrderService.dispatchOrder distByLat dbC4 orderC4 7 =
           (OrderRepository.updateStatus dbC4 orderC4.id .accepted
             (some c.driver_id) 7).1) :=
  c4_candidates_from_driver_status distByLat dbC4 orderC4 7 (by decide)

/-! ### C8: dispatch with no eligible drivers. -/

/-- Claim C8: `Dispatch` on an order with zero eligible drivers returns
{assigned: false} as a normal outcome (no error), assigns no driver, and
leaves the order's status unchanged at `created`: with
`findAvailableDrivers` empty, `dispatchOrder` returns before any write,
and `triggerDispatch` answers `.ok` with `assigned = false` and the
database untouched. -/
theorem c8_empty_dispatch (dist : Dist) (db : Db) (orderId : String)
    (order : OrderRow) (now : ℤ)
    (hfind : OrderRepository.findById db orderId = some order)
    (hstatus : order.status = .created)
    (hdriver : order.driver_id = none)
    (hempty : OrderRepository.findAvailableDrivers db = []) :
    OrderService.dispatchOrder dist db order now = db ∧
    OrderService.triggerDispatch dist db orderId now =
      (db, .ok { assigned := false, driver_id := none }) ∧
    (OrderRepository.findById (OrderService.triggerDispatch dist db orderId now).1
        orderId).map (fun r => r.status) = some OrderStatus.created := by
  have hdisp : OrderService.dispatchOrder dist db order now = db := by
    simp only [OrderService.dispatchOrder, hempty]
    rfl
  have htrig : OrderService.triggerDispatch dist db orderId now =
      (db, .ok { assigned := false, driver_id := none }) := by
    simp only [OrderService.triggerDispatch, hfind, hstatus]
    simp [hdisp, hfind, hdriver]
  refine ⟨hdisp, htrig, ?_⟩
  rw [htrig]
  simp [hfind, hstatus]

/-- Fixture for the C8 witness: a freshly created order and no drivers. -/
def createdRow : OrderRow :=
  { id := "o9", customer_id := "c1", merchant_id := "m1",
    driver_id := none, status := .created, total_price := 5,
    pickup_lat := 1, pickup_lng := 1, dropoff_lat := 2, dropoff_lng := 2,
    notes := none, created_at := 0, updated_at := 0 }

def dbNoDrivers : Db := { orders := [createdRow], driver_status := [] }

theorem c8_empty_dispatch_witness :
    OrderService.dispatchOrder distByLat dbNoDrivers createdRow 5 = dbNoDrivers ∧
    OrderService.triggerDispatch distByLat dbNoDrivers "o9" 5 =
      (dbNoDrivers, .ok { assigned := false, driver_id := none }) ∧
    (OrderRepository.findById
        (OrderService.triggerDispatch distByLat dbNoDrivers "o9" 5).1 "o9").map
      (fun r => r.status) = some OrderStatus.created :=
  c8_empty_dispatch distByLat dbNoDrivers "o9" createdRow 5
    (by decide) (by decide) (by decide) (by decide)

/-! ### C6: error taxonomy and ordering of guards in `updateOrderStatus`. -/

/-- Claim C6: `Transition(order, target, actor)` fails NotFound when the
order is missing; AccessDenied when the actor is not a party (customer,
merchant, assigned driver, or admin) — checked before the role-permission
guard, i.e. regardless of whether the role would permit the target;
Forbidden when the role's permitted set (merchant {accepted, preparing,
cancelled}; driver {picked_up, delivered}; customer {cancelled}; admin all
five settable statuses, i.e. any target expressible through the validated
input, which excludes `created`) lacks the target; InvalidTransition when
the ordering guard rejects; and on any failure the database is unchanged. -/
theorem c6_update_status_guards (db : Db) (orderId : String)
    (target : OrderStatus) (userId : String) (role : Role) (now : ℤ) :
    (ALLOWED_TRANSITIONS .merchant = [.accepted, .preparing, .cancelled] ∧
     ALLOWED_TRANSITIONS .driver = [.picked_up, .delivered] ∧
     ALLOWED_TRANSITIONS .customer = [.cancelled] ∧
     ALLOWED_TRANSITIONS .admin =
       [.accepted, .preparing, .picked_up, .delivered, .cancelled]) ∧
    (OrderRepository.findById db orderId = none →
      OrderService.updateOrderStatus db orderId target userId role now =
        (db, .error .notFound)) ∧
    (∀ order, OrderRepository.findById db orderId = some order →
      (¬ (role = .admin ∨ order.customer_id = userId ∨
            order.merchant_id = userId ∨ order.driver_id = some userId) →
        OrderService.updateOrderStatus db orderId target userId role now =
          (db, .error .accessDenied)) ∧
      ((role = .admin ∨ order.customer_id = userId ∨
            order.merchant_id = userId ∨ order.driver_id = some userId) →
        target ∉ ALLOWED_TRANSITIONS role →
        OrderService.updateOrderStatus db orderId target userId role now =
          (db, .error .roleForbidden)) ∧
      ((role = .admin ∨ order.customer_id = userId ∨
            order.merchant_id = userId ∨ order.driver_id = some userId) →
        target ∈ ALLOWED_TRANSITIONS role →
        isValidTransition order.status target = false →
        OrderService.updateOrderStatus db orderId target userId role now =
          (db, .error .invalidTransition))) ∧
    (∀ e, (OrderService.updateOrderStatus db orderId target userId role now).2 =
        .error e →
      (OrderService.updateOrderStatus db orderId target userId role now).1 = db) := by
  refine ⟨⟨rfl, rfl, rfl, rfl⟩, ?_, ?_, ?_⟩
  · intro hnone
    simp only [OrderService.updateOrderStatus, hnone]
  · intro order hsome
    refine ⟨?_, ?_, ?_⟩
    · intro hnp
      simp only [OrderService.updateOrderStatus, hsome]
      rw [if_pos hnp]
    · intro hp hnotallowed
      simp only [OrderService.updateOrderStatus, hsome]
      rw [if_neg (not_not_intro hp), if_pos hnotallowed]
    · intro hp hallowed hbad
      simp only [OrderService.updateOrderStatus, hsome]
      rw [if_neg (not_not_intro hp), if_neg (not_not_intro hallowed),
        if_pos (by simp [hbad])]
  · intro e
    simp only [OrderService.updateOrderStatus]
    cases hf : OrderRepository.findById db orderId with
    | none => intro _; rfl
    | some order =>
      intro he
      dsimp only at he ⊢
      split_ifs at he ⊢ with h1 h2 h3
      all_goals rfl

/-- Witness for C6: on a database with no orders, the service answers
NotFound (and the database is unchanged). -/
theorem c6_update_status_guards_witness :
    OrderService.updateOrderStatus dbEmpty "nope" .accepted "u1" .customer 0 =
      (dbEmpty, .error .notFound) :=
  (c6_update_status_guards dbEmpty "nope" .accepted "u1" .customer 0).2.1 (by decide)

/-! ### C7: lazy eviction of stale entries by `Nearby`. -/

/-- The locations surviving the prune phase are exactly the fresh ones,
whichever branch the `pruned` flag takes. -/
theorem pruneStale_locations (st : TrackerState) (now : ℤ) :
    (pruneStale st now).locations =
      st.locations.filter (fun p => !(p.2.updated_at < now - staleWindowMs)) := by
  rw [pruneStale]
  split
  · rfl
  · rfl

/-- Claim C7: every location entry more than 5 minutes older than the
query time is excluded from the `Nearby` result, deleted from the live
mapping and from persisted storage by that query, and a subsequent `Get`
for that driver answers not-found.  (`hwf`/`hnd` are the store invariants:
each entry is keyed by its own driver id, one entry per driver.) -/
theorem c7_stale_entries_evicted (dist : Dist) (st : TrackerState) (d : String)
    (loc : DriverLocation) (lat lng radius : ℚ) (now : ℤ)
    (hwf : ∀ p ∈ st.locations, p.2.driver_id = p.1)
    (hnd : (st.locations.map Prod.fst).Nodup)
    (hmem : objGet st.locations d = some loc)
    (hstale : loc.updated_at < now - staleWindowMs) :
    (∀ e ∈ (handleNearby dist st lat lng radius now).2, e.driver_id ≠ d) ∧
    objGet ((handleNearby dist st lat lng radius now).1).locations d = none ∧
    ((handleNearby dist st lat lng radius now).1).storage =
      some ((handleNearby dist st lat lng radius now).1).locations ∧
    handleGetLocation ((handleNearby dist st lat lng radius now).1) d = none := by
  rw [objGet] at hmem
  cases hfind : st.locations.find? (fun p => p.1 == d) with
  | none => rw [hfind] at hmem; simp at hmem
  | some p0 =>
    rw [hfind] at hmem
    have hp0loc : p0.2 = loc := by simpa using hmem
    have hp0mem : p0 ∈ st.locations := List.mem_of_find?_eq_some hfind
    have hp0key : p0.1 = d := by
      have := List.find?_some hfind
      exact eq_of_beq (by simpa using this)
    have hp0stale : p0.2.updated_at < now - staleWindowMs := hp0loc ▸ hstale
    have hkeptkey : ∀ q ∈ st.locations.filter
        (fun p => !(p.2.updated_at < now - staleWindowMs)), q.1 ≠ d := by
      intro q hq hqd
      have hqmem := (List.mem_filter.mp hq).1
      have hqpred := (List.mem_filter.mp hq).2
      have : q = p0 :=
        List.inj_on_of_nodup_map hnd hqmem hp0mem (hqd.trans hp0key.symm)
      subst this
      rw [Bool.not_eq_eq_eq_not] at hqpred
      simp only [Bool.not_true, decide_eq_false_iff_not] at hqpred
      exact hqpred hp0stale
    have hlocs := pruneStale_locations st now
    have hfind2 : (st.locations.filter
        (fun p => !(p.2.updated_at < now - staleWindowMs))).find?
          (fun p => p.1 == d) = none := by
      rw [List.find?_eq_none]
      intro q hq
      simpa using hkeptkey q hq
    have hget : objGet (pruneStale st now).locations d = none := by
      rw [hlocs, objGet, hfind2]
      rfl
    refine ⟨?_, hget, ?_, hget⟩
    · intro e he hed
      rw [handleNearby] at he
      have he' := mem_jsSortByKey.mp he
      rw [nearbyCandidates] at he'
      have he'' := (List.mem_filter.mp he').1
      obtain ⟨loc', hloc', hle⟩ := List.mem_map.mp he''
      obtain ⟨q, hqmem, hq2⟩ := List.mem_map.mp hloc'
      have : e.driver_id = loc'.driver_id := by rw [← hle]
      rw [hlocs] at hqmem
      have hkey : q.2.driver_id = q.1 := hwf q (List.mem_filter.mp hqmem).1
      exact hkeptkey q hqmem (by rw [← hed, this, ← hq2, hkey])
    · rw [handleNearby]
      have hlen : (st.locations.filter
          (fun p => !(p.2.updated_at < now - staleWindowMs))).length ≠
          st.locations.length := by
        intro hlen
        have heq := List.Sublist.eq_of_length (List.filter_sublist st.locations) hlen
        have : p0 ∈ st.locations.filter
            (fun p => !(p.2.updated_at < now - staleWindowMs)) := by
          rw [heq]
          exact hp0mem
        exact hkeptkey p0 this hp0key
      rw [pruneStale, if_pos hlen]
      rfl

/-- Witness for C7: driver "w" reported at t = 0; a Nearby query at
t = 301000 ms (5 minutes plus a second later) evicts the entry from the
result, the live map, and storage, and a follow-up Get misses. -/
def locW : DriverLocation := { driver_id := "w", lat := 3, lng := 3, updated_at := 0 }

def trW : TrackerState := { locations := [("w", locW)], storage := some [("w", locW)] }

theorem c7_stale_entries_evicted_witness :
    (∀ e ∈ (handleNearby distByLat trW 1 1 10 301000).2, e.driver_id ≠ "w") ∧
    objGet ((handleNearby distByLat trW 1 1 10 301000).1).locations "w" = none ∧
    ((handleNearby distByLat trW 1 1 10 301000).1).storage =
      some ((handleNearby distByLat trW 1 1 10 301000).1).locations ∧
    handleGetLocation ((handleNearby distByLat trW 1 1 10 301000).1) "w" = none :=
  c7_stale_entries_evicted distByLat trW "w" locW 1 1 10 301000
    (by decide) (by decide) (by decide) (by decide)

/-! ### C9: Upsert-then-Get round trip on the LocationStore. -/

/-- Claim C9: for every valid coordinate pair and driver, `Upsert` then
`Get` returns exactly the upserted coordinates, stamped with the current
wall-clock time, which is no earlier than the replaced entry's timestamp
(`hclock` is the wall-clock monotonicity of the earlier write). -/
theorem c9_upsert_then_get (st : TrackerState) (d : String) (lat lng : ℚ)
    (now : ℤ)
    (hlat : -90 ≤ lat ∧ lat ≤ 90) (hlng : -180 ≤ lng ∧ lng ≤ 180)
    (hd : d ≠ "")
    (hclock : ∀ old, objGet st.locations d = some old → old.updated_at ≤ now) :
    ∃ st', handleUpdateLocation st d lat lng now =
        .ok (st', { driver_id := d, lat := lat, lng := lng, updated_at := now }) ∧
      handleGetLocation st' d =
        some { driver_id := d, lat := lat, lng := lng, updated_at := now } ∧
      ∀ old, objGet st.locations d = some old →
        old.updated_at ≤
          ({ driver_id := d, lat := lat, lng := lng,
             updated_at := now } : DriverLocation).updated_at := by
  rw [handleUpdateLocation, if_neg hd]
  refine ⟨_, rfl, ?_, hclock⟩
  rw [handleGetLocation]
  exact objGet_objSet_self st.locations d _

/-- Fixture for the C9 witness: driver "u" previously reported at t = 5. -/
def locU : DriverLocation := { driver_id := "u", lat := 1, lng := 1, updated_at := 5 }

def trU : TrackerState := { locations := [("u", locU)], storage := some [("u", locU)] }

theorem c9_upsert_then_get_witness :
    ∃ st', handleUpdateLocation trU "u" 10 20 7 =
        .ok (st', { driver_id := "u", lat := 10, lng := 20, updated_at := 7 }) ∧
      handleGetLocation st' "u" =
        some { driver_id := "u", lat := 10, lng := 20, updated_at := 7 } ∧
      ∀ old, objGet trU.locations "u" = some old →
        old.updated_at ≤
          ({ driver_id := "u", lat := 10, lng := 20,
             updated_at := 7 } : DriverLocation).updated_at :=
  c9_upsert_then_get trU "u" 10 20 7 (by exact ⟨by decide, by decide⟩)
    (by exact ⟨by decide, by decide⟩) (by decide)
    (fun old h => by
      have h2 : locU = old := Option.some.inj h
      rw [← h2]
      decide)

/-! ### C10: toggling availability clears the mirrored position. -/

/-- Whether an operation is a location update for driver `d` (the only
operation that writes non-NULL coordinates into `driver_status`). -/
def isLocationUpdateFor (d : String) : Op → Bool
  | .updateLocation dr _ _ _ => dr == d
  | _ => false

/-- Driver `d`'s mirrored coordinates are NULL everywhere in the table. -/
def NullPosFor (d : String) (db : Db) : Prop :=
  ∀ row ∈ db.driver_status, row.driver_id = d → row.current_lat = none

theorem nullpos_of_eq {d : String} {db db' : Db} (h : NullPosFor d db)
    (heq : db'.driver_status = db.driver_status) : NullPosFor d db' :=
  fun row hrow => h row (heq ▸ hrow)

/-- The fields every row for `d` carries right after
`setAvailability(d, avail)`: availability as requested and NULL
coordinates — and such a row exists. -/
theorem setAvailability_rows (db : Db) (d : String) (avail : Bool) (now : ℤ) :
    (∃ row ∈ (DriverService.setAvailability db d avail now).driver_status,
       row.driver_id = d) ∧
    ∀ row ∈ (DriverService.setAvailability db d avail now).driver_status,
      row.driver_id = d →
      row.is_available = avail ∧ row.current_lat = none ∧
        row.current_lng = none := by
  rw [DriverService.setAvailability, OrderRepository.upsertDriverStatus]
  split
  · rename_i hany
    obtain ⟨row0, hrow0, hbeq0⟩ := List.any_eq_true.mp hany
    refine ⟨?_, ?_⟩
    · refine ⟨({ row0 with is_available := avail, current_lat := none, current_lng := none, updated_at := now } : DriverStatusRow), ?_, ?_⟩
      · exact List.mem_map.mpr ⟨row0, hrow0, by rw [if_pos hbeq0]⟩
      · exact eq_of_beq hbeq0
    · intro row' hrow' hid
      obtain ⟨row, hrow, hf⟩ := List.mem_map.mp hrow'
      by_cases hb : (row.driver_id == d) = true
      · rw [if_pos hb] at hf
        rw [← hf]
        exact ⟨rfl, rfl, rfl⟩
      · rw [if_neg hb] at hf
        rw [← hf] at hid
        exact absurd (beq_iff_eq.mpr hid) hb
  · rename_i hany
    refine ⟨?_, ?_⟩
    · refine ⟨({ driver_id := d, is_available := avail, current_lat := none, current_lng := none, updated_at := now } : DriverStatusRow), ?_, rfl⟩
      exact List.mem_append.mpr (Or.inr (List.mem_singleton.mpr rfl))
    · intro row' hrow' hid
      rcases List.mem_append.mp hrow' with hin | hin
      · rw [List.any_eq_true] at hany
        exact absurd ⟨row', hin, beq_iff_eq.mpr hid⟩ hany
      · rw [List.mem_singleton.mp hin]
        exact ⟨rfl, rfl, rfl⟩

/-- Any upsert that carries no coordinates leaves/establishes NULL
coordinates for `d`'s rows. -/
theorem nullpos_upsert_none {d : String} {db : Db} (dr : String) (avail : Bool)
    (now : ℤ) (h : NullPosFor d db) :
    NullPosFor d (OrderRepository.upsertDriverStatus db dr avail none none now) := by
  rw [OrderRepository.upsertDriverStatus]
  split
  · intro row' hrow' hid
    obtain ⟨row, hrow, hf⟩ := List.mem_map.mp hrow'
    by_cases hb : (row.driver_id == dr) = true
    · rw [if_pos hb] at hf
      rw [← hf]
    · rw [if_neg hb] at hf
      rw [← hf] at hid ⊢
      exact h row hrow hid
  · intro row' hrow' hid
    rcases List.mem_append.mp hrow' with hin | hin
    · exact h row' hin hid
    · rw [List.mem_singleton.mp hin]

/-- An upsert for a different driver, whatever coordinates it carries,
preserves NULL coordinates for `d`'s rows. -/
theorem nullpos_upsert_other {d : String} {db : Db} (dr : String) (avail : Bool)
    (lat lng : Option ℚ) (now : ℤ) (hne : dr ≠ d) (h : NullPosFor d db) :
    NullPosFor d (OrderRepository.upsertDriverStatus db dr avail lat lng now) := by
  rw [OrderRepository.upsertDriverStatus]
  split
  · intro row' hrow' hid
    obtain ⟨row, hrow, hf⟩ := List.mem_map.mp hrow'
    by_cases hb : (row.driver_id == dr) = true
    · rw [if_pos hb] at hf
      rw [← hf] at hid
      have hid' : row.driver_id = d := hid
      exact absurd ((eq_of_beq hb).symm.trans hid') hne
    · rw [if_neg hb] at hf
      rw [← hf] at hid ⊢
      exact h row hrow hid
  · intro row' hrow' hid
    rcases List.mem_append.mp hrow' with hin | hin
    · exact h row' hin hid
    · rw [List.mem_singleton.mp hin] at hid
      have hid' : dr = d := hid
      exact absurd hid' hne

theorem driver_status_updateStatus (db : Db) (id : String) (status : OrderStatus)
    (driverId : Option String) (now : ℤ) :
    ((OrderRepository.updateStatus db id status driverId now).1).driver_status =
      db.driver_status := rfl

theorem driver_status_dispatchOrder (dist : Dist) (db : Db) (order : OrderRow)
    (now : ℤ) :
    (OrderService.dispatchOrder dist db order now).driver_status =
      db.driver_status := by
  rw [OrderService.dispatchOrder]
  split
  · rfl
  · dsimp only
    split
    · rfl
    · rfl

theorem driver_status_triggerDispatch (dist : Dist) (db : Db) (orderId : String)
    (now : ℤ) :
    ((OrderService.triggerDispatch dist db orderId now).1).driver_status =
      db.driver_status := by
  rw [OrderService.triggerDispatch]
  split
  · rfl
  · split
    · rfl
    · exact driver_status_dispatchOrder dist db _ now

theorem driver_status_updateOrderStatus (db : Db) (orderId : String)
    (target : OrderStatus) (userId : String) (role : Role) (now : ℤ) :
    ((OrderService.updateOrderStatus db orderId target userId role now).1).driver_status =
      db.driver_status := by
  rw [OrderService.updateOrderStatus]
  split
  · rfl
  · split_ifs
    · rfl
    · rfl
    · rfl
    · rfl

/-- One step of any operation that is not a location update for `d` keeps
`d`'s mirrored coordinates NULL. -/
theorem step_preserves_nullpos (dist : Dist) (s : Sys) (op : Op) (d : String)
    (hop : isLocationUpdateFor d op = false) (h : NullPosFor d s.db) :
    NullPosFor d (step dist s op).db := by
  cases op with
  | createOrder oid cid inp now => exact nullpos_of_eq h rfl
  | runAutoDispatch now =>
    rw [step]
    cases s.pending with
    | nil => exact h
    | cons row rest =>
      exact nullpos_of_eq h (driver_status_dispatchOrder dist s.db row now)
  | triggerDispatch oid now =>
    exact nullpos_of_eq h (driver_status_triggerDispatch dist s.db oid now)
  | updateOrderStatus oid target uid role now =>
    exact nullpos_of_eq h (driver_status_updateOrderStatus s.db oid target uid role now)
  | updateLocation dr lat lng now =>
    rw [isLocationUpdateFor] at hop
    exact nullpos_upsert_other dr true (some lat) (some lng) now
      (by simpa using hop) h
  | goOffline dr now => exact nullpos_upsert_none dr false now h
  | setAvailability dr avail now =>
    rw [step, DriverService.setAvailability]
    exact nullpos_upsert_none dr avail now h

theorem run_preserves_nullpos (dist : Dist) (s : Sys) (ops : List Op) (d : String)
    (hops : ∀ op ∈ ops, isLocationUpdateFor d op = false) (h : NullPosFor d s.db) :
    NullPosFor d (run dist s ops).db := by
  induction ops generalizing s with
  | nil => exact h
  | cons op rest ih =>
    rw [run, List.foldl_cons]
    exact ih (step dist s op)
      (fun o ho => hops o (List.mem_cons_of_mem op ho))
      (step_preserves_nullpos dist s op d (hops op (List.mem_cons_self op rest)) h)

/-- A driver whose mirrored coordinates are NULL never appears among the
dispatch candidates. -/
theorem not_candidate_of_nullpos {d : String} {db : Db} (h : NullPosFor d db) :
    ∀ c ∈ OrderRepository.findAvailableDrivers db, c.driver_id ≠ d := by
  intro c hc hcd
  obtain ⟨row, hrow, hf⟩ := List.mem_map.mp hc
  have hmem := (List.mem_filter.mp hrow).1
  have hpred := (List.mem_filter.mp hrow).2
  have hid : row.driver_id = d := by
    rw [← hf] at hcd
    exact hcd
  have hnull := h row hmem hid
  rw [Bool.and_eq_true, Bool.and_eq_true, Bool.and_eq_true] at hpred
  rw [hnull] at hpred
  simp at hpred

/-- Claim C10: `SetAvailability(d, available)` invoked without a position
(as by the availability-toggle route) overwrites the record's coordinates
to NULL, so immediately afterwards — even with available = true — driver
`d` is absent from the eligible-driver set, and stays absent across any
further operations until a location update for `d` arrives. -/
theorem c10_toggle_availability_clears_position (db : Db) (d : String)
    (available : Bool) (now : ℤ) (dist : Dist) (pending : List OrderRow)
    (ops : List Op)
    (hops : ∀ op ∈ ops, isLocationUpdateFor d op = false) :
    (∃ row ∈ (DriverService.setAvailability db d available now).driver_status,
        row.driver_id = d) ∧
    (∀ row ∈ (DriverService.setAvailability db d available now).driver_status,
        row.driver_id = d →
        row.is_available = available ∧ row.current_lat = none ∧
          row.current_lng = none) ∧
    (∀ c ∈ OrderRepository.findAvailableDrivers
        (DriverService.setAvailability db d available now), c.driver_id ≠ d) ∧
    (∀ c ∈ OrderRepository.findAvailableDrivers
        (run dist { db := DriverService.setAvailability db d available now,
                    pending := pending } ops).db, c.driver_id ≠ d) := by
  have hrows := setAvailability_rows db d available now
  have hnull : NullPosFor d (DriverService.setAvailability db d available now) :=
    fun row hrow hid => (hrows.2 row hrow hid).2.1
  exact ⟨hrows.1, hrows.2, not_candidate_of_nullpos hnull,
    not_candidate_of_nullpos
      (run_preserves_nullpos dist _ ops d hops hnull)⟩

/-- Witness for C10: driver "dZ" had reported (4,4); toggling availability
to true clears the coordinates and keeps dZ out of the candidate set, also
after an unrelated driver "dY" updates their location. -/
def dbZ : Db := OrderRepository.upsertDriverStatus dbEmpty "dZ" true (some 4) (some 4) 0

theorem c10_toggle_availability_clears_position_witness :
    (∃ row ∈ (DriverService.setAvailability dbZ "dZ" true 1).driver_status,
        row.driver_id = "dZ") ∧
    (∀ row ∈ (DriverService.setAvailability dbZ "dZ" true 1).driver_status,
        row.driver_id = "dZ" →
        row.is_available = true ∧ row.current_lat = none ∧
          row.current_lng = none) ∧
    (∀ c ∈ OrderRepository.findAvailableDrivers
        (DriverService.setAvailability dbZ "dZ" true 1), c.driver_id ≠ "dZ") ∧
    (∀ c ∈ OrderRepository.findAvailableDrivers
        (run distByLat { db := DriverService.setAvailability dbZ "dZ" true 1,
                         pending := [] }
          [.updateLocation "dY" 2 2 2]).db, c.driver_id ≠ "dZ") :=
  c10_toggle_availability_clears_position dbZ "dZ" true 1 distByLat []
    [.updateLocation "dY" 2 2 2] (by decide)

end Marteech
